import Mathlib

/-!
Shallow embedding of the `underbase-cli` command-line tool (`src/cli.ts`).

The CLI discovers migration versions from a directory listing, builds a
configuration object, and drives the external `underbase` migrator through
the calls `migrator.config`, `migrator.add`, `migrator.getVersion`,
`migrator.migrateTo`, plus a `mongodump` backup subprocess.  The migrator
itself is an external npm dependency, so the observable behaviour of the
CLI is the ordered sequence of calls it issues to those collaborators.
We model that sequence as a trace of `Event`s produced by a small
JavaScript-style event loop (synchronous execution to the first `await`,
a microtask queue for awaits on plain values, FIFO resolution of awaited
external promises, `process.exit` halting everything).
-/

namespace UnderbaseCli

/-- Value of a decimal digit character; used only on characters for which
`Char.isDigit` holds. -/
def digitVal (c : Char) : ℕ := c.toNat - 48

/-- JavaScript regular-expression `.` (as written in `/^[\d].[\d]$/` at
cli.ts:144): matches any character except a line terminator. -/
def jsDotMatches (c : Char) : Bool :=
  c ≠ '\n' && c ≠ '\r' && c.toNat ≠ 0x2028 && c.toNat ≠ 0x2029

/-- Test of the source regex `/^[\d].[\d]$/` (cli.ts:144): a three-character
string whose first and last characters are digits and whose middle character
is anything the unescaped regex dot accepts. -/
def jsVersionRegexTest (s : String) : Bool :=
  match s.data with
  | [a, b, c] => a.isDigit && jsDotMatches b && c.isDigit
  | _ => false

/-- Modelled from the spec: the discovery pattern the spec describes,
"one digit, a literal dot, one digit".  Kept separate from
`jsVersionRegexTest` (the pattern the code actually uses) so the two can be
compared. -/
def specVersionPattern (s : String) : Bool :=
  match s.data with
  | [a, b, c] => a.isDigit && b = '.' && c.isDigit
  | _ => false

/-- JavaScript `parseFloat` restricted to the three-character strings
accepted by `jsVersionRegexTest` (digit, any non-terminator character,
digit), the only strings it is applied to in cli.ts:148.  `parseFloat`
reads the longest numeric prefix: `"1.5"` is one and five tenths, `"150"`
is the three-digit integer, `"1e5"`/`"1E5"` use scientific notation, and
any other middle character stops the parse after the first digit. -/
def parseFloat3 (s : String) : ℚ :=
  match s.data with
  | [a, b, c] =>
    if a.isDigit then
      if b = '.' then (digitVal a : ℚ) + (digitVal c : ℚ) / 10
      else if b.isDigit then (100 * digitVal a + 10 * digitVal b + digitVal c : ℕ)
      else if b = 'e' || b = 'E' then (digitVal a : ℚ) * 10 ^ (digitVal c)
      else (digitVal a : ℚ)
    else 0
  | _ => 0

/-- JavaScript `Number.prototype.toFixed(1)` (cli.ts:43 and cli.ts:155) on
the nonnegative values that reach it: round to the nearest tenth (ties
away from zero) and print with exactly one fractional digit. -/
def toFixed1 (q : ℚ) : String :=
  toString (⌊q * 10 + 1 / 2⌋ / 10) ++ "." ++ toString (⌊q * 10 + 1 / 2⌋ % 10)

/-- JavaScript number-to-string conversion as used by the template literal
`${argv.migration}` (cli.ts:172), restricted to the nonnegative multiples
of one tenth that the CLI handles: an integral value prints with no
fractional part, otherwise the single tenths digit is printed. -/
def jsNumToString (q : ℚ) : String :=
  if ⌊q * 10⌋ % 10 = 0 then toString (⌊q * 10⌋ / 10)
  else toString (⌊q * 10⌋ / 10) ++ "." ++ toString (⌊q * 10⌋ % 10)

/-- External calls the migrate command can issue, in the sense explained in
the file header; `errorExit` is the "This version does not exists." log
followed by `process.exit()` (cli.ts:151-152). -/
inductive Event where
  | errorExit
  | configCall
  | addCall (version : String)
  | getVersionCall
  | backupCall (archive : String)
  | migrateToCall (spec : String)
  deriving DecidableEq

/-- Whether an event is a `migrator.add` invocation. -/
def Event.isAddCall : Event → Bool
  | .addCall _ => true
  | _ => false

/-- Whether an event is a `migrator.migrateTo` invocation. -/
def Event.isMigrateToCall : Event → Bool
  | .migrateToCall _ => true
  | _ => false

/-- Whether an event is an invocation of the backup subprocess. -/
def Event.isBackupCall : Event → Bool
  | .backupCall _ => true
  | _ => false

/-- Async program skeleton: `emit e k` performs an external call and
continues with `k`; `awaitV k` awaits an already-available value, queueing
`k` as a microtask; `awaitP k` awaits an external promise, with `k` resumed
when the promise resolves; `spawnAll ps k` is `Array.forEach` with an async
callback — each callback in `ps` runs synchronously up to its first await
and its returned promise is ignored; `halt` is `process.exit()`. -/
inductive Prog where
  | done
  | halt
  | emit (e : Event) (k : Prog)
  | awaitV (k : Prog)
  | awaitP (k : Prog)
  | spawnAll (ps : List Prog) (k : Prog)

/-- Result of running a program synchronously to its next suspension point:
the events emitted, the microtasks queued, the pending external
continuations created, and whether `process.exit` was reached. -/
structure SyncOut where
  events : List Event
  micro : List Prog
  pend : List Prog
  halted : Bool

/-- Run a program synchronously until every branch has suspended, finished
or exited, as a JavaScript engine does between awaits. -/
def syncRun : Prog → SyncOut
  | .done => ⟨[], [], [], false⟩
  | .halt => ⟨[], [], [], true⟩
  | .emit e k =>
    let o := syncRun k
    ⟨e :: o.events, o.micro, o.pend, o.halted⟩
  | .awaitV k => ⟨[], [k], [], false⟩
  | .awaitP k => ⟨[], [], [k], false⟩
  | .spawnAll [] k => syncRun k
  | .spawnAll (p :: ps) k =>
    let o₁ := syncRun p
    if o₁.halted then o₁
    else
      let o₂ := syncRun (.spawnAll ps k)
      ⟨o₁.events ++ o₂.events, o₁.micro ++ o₂.micro, o₁.pend ++ o₂.pend, o₂.halted⟩

/-- Fueled event loop: the microtask queue drains before the next pending
external promise resolves, and external promises resolve in the order they
were created.  `process.exit` drops everything still queued. -/
def loop : ℕ → List Prog → List Prog → List Event
  | 0, _, _ => []
  | _ + 1, [], [] => []
  | fuel + 1, m :: micro, pend =>
    let o := syncRun m
    if o.halted then o.events
    else o.events ++ loop fuel (micro ++ o.micro) (pend ++ o.pend)
  | fuel + 1, [], p :: pend =>
    let o := syncRun p
    if o.halted then o.events
    else o.events ++ loop fuel o.micro (pend ++ o.pend)

/-- Trace of a whole program: run the main task synchronously, then run the
event loop on whatever it queued. -/
def runProg (fuel : ℕ) (p : Prog) : List Event :=
  let o := syncRun p
  if o.halted then o.events else o.events ++ loop fuel o.micro o.pend

/-- The filtered directory listing (cli.ts:143-144):
`fs.readdirSync(migrationsDir).filter(v => v.match(/^[\d].[\d]$/))`. -/
def versionsFiltered (listing : List String) : List String :=
  listing.filter jsVersionRegexTest

/-- `versions.map(v => parseFloat(v))` (cli.ts:148). -/
def versionsArray (listing : List String) : List ℚ :=
  (versionsFiltered listing).map parseFloat3

/-- `versionsArray.map(v => v.toFixed(1))` (cli.ts:155): the names under
which migration modules are loaded and registered. -/
def versionsNormalized (listing : List String) : List String :=
  (versionsArray listing).map toFixed1

/-- The unknown-version guard (cli.ts:150):
`argv.migration !== 0 && versionsArray.indexOf(parseFloat(argv.migration)) < 0`.
`migration` is the yargs-parsed numeric target; `indexOf(x) < 0` is
exactly non-membership. -/
def unknownVersionGuard (listing : List String) (migration : ℚ) : Bool :=
  !(migration == 0) && !((versionsArray listing).contains migration)

/-- The argument string passed to `migrator.migrateTo` (cli.ts:171-175):
the template literal result with the literal suffix `,rerun` when the
`--rerun` flag is set, the bare target otherwise. -/
def migrateToSpec (migration : ℚ) (rerun : Bool) : String :=
  if rerun then jsNumToString migration ++ ",rerun" else jsNumToString migration

/-- Archive file name built by `createBackup` (cli.ts:42-45):
`[version.toFixed(1), Date.now() + ".gz"].join("_")`. -/
def backupFile (version : ℚ) (now : ℕ) : String :=
  toFixed1 version ++ "_" ++ (toString now ++ ".gz")

/-- One iteration of the registration loop (cli.ts:159-163):
`async v => { const obj = await require(dir/v).default; await migrator.add(obj); }`.
The callback runs synchronously through the (synchronous) `require`, then
the first `await` on the already-available module defers the rest to the
microtask queue; the trailing `await` of the `add` promise has no code
after it and so contributes no further events. -/
def migrationCallback (v : String) : Prog :=
  .awaitV (.emit (.addCall v) .done)

/-- The tail of the migrate command (cli.ts:171-175): invoke
`migrator.migrateTo` and await it, with nothing left to run afterwards. -/
def migrateTail (migration : ℚ) (rerun : Bool) : Prog :=
  .emit (.migrateToCall (migrateToSpec migration rerun)) .done

/-- The migrate command from the registration loop onwards (cli.ts:159-175):
`versions.forEach(async ...)` spawns the registration callbacks; then, when
backups are enabled, `await migrator.getVersion()` and
`await createBackup(currentVersion)` run before `migrateTo` —
`createBackup`'s promise resolves on `mongodump` success and calls
`process.exit()` on failure (cli.ts:54-59).  `backupOk` is the outcome of
that external subprocess, `currentVersion` the value `getVersion` resolves
with, and `now` the `Date.now()` timestamp. -/
def migrateAfterConfig (listing : List String) (migration : ℚ)
    (rerun backup backupOk : Bool) (currentVersion : ℚ) (now : ℕ) : Prog :=
  .spawnAll ((versionsNormalized listing).map migrationCallback)
    (if backup then
      .emit .getVersionCall (.awaitP
        (.emit (.backupCall (backupFile currentVersion now))
          (.awaitP (if backupOk then migrateTail migration rerun else .halt))))
    else migrateTail migration rerun)

/-- The whole `migrate` case (cli.ts:147-178): the unknown-version guard
logs and exits before any collaborator is called; otherwise
`await migrator.config(config)` runs first and the rest follows. -/
def migrateProg (listing : List String) (migration : ℚ)
    (rerun backup backupOk : Bool) (currentVersion : ℚ) (now : ℕ) : Prog :=
  if unknownVersionGuard listing migration then .emit .errorExit .halt
  else
    .emit .configCall
      (.awaitP (migrateAfterConfig listing migration rerun backup backupOk currentVersion now))

/-- The observable trace of one `migrate` invocation: the sequence of
collaborator calls the CLI issues, in order.  The fuel bound exceeds the
number of tasks the program can ever queue. -/
def migrateTrace (listing : List String) (migration : ℚ)
    (rerun backup backupOk : Bool) (currentVersion : ℚ) (now : ℕ) : List Event :=
  runProg (listing.length + 8)
    (migrateProg listing migration rerun backup backupOk currentVersion now)

/-- The versions passed to `migrator.add`, in call order, read off a trace. -/
def addVersions (t : List Event) : List String :=
  t.filterMap fun e =>
    match e with
    | .addCall v => some v
    | _ => none

/-- Checks that every `migrator.add` call in a trace happens before every
`migrator.migrateTo` call. -/
def addsPrecedeMigrateTo : List Event → Bool
  | [] => true
  | e :: rest =>
    (if e.isMigrateToCall then rest.all fun x => !x.isAddCall else true)
      && addsPrecedeMigrateTo rest

/-- Number of backup-subprocess invocations in a trace. -/
def countBackups (t : List Event) : ℕ :=
  (t.filter Event.isBackupCall).length

/-- Number of `migrator.migrateTo` invocations in a trace. -/
def countMigrates (t : List Event) : ℕ :=
  (t.filter Event.isMigrateToCall).length

/-- Checks that no `migrateTo` call occurs before the first backup call:
walking the trace, the first backup-or-migrate event met is a backup (or
neither ever occurs). -/
def backupBeforeAnyMigrate : List Event → Bool
  | [] => true
  | e :: rest =>
    if e.isMigrateToCall then false
    else if e.isBackupCall then true
    else backupBeforeAnyMigrate rest

/-! ### The configuration object (cli.ts:102-125) -/

/-- The command-line options relevant to the core configuration; a missing
flag is JavaScript `undefined`, modelled as `none`. -/
structure CliArgs where
  logs : Option Bool
  backup : Option Bool
  collectionName : Option String

/-- The same options as they may appear in a loaded config file. -/
structure ConfigFileOpts where
  logs : Option Bool
  backup : Option Bool
  collectionName : Option String

/-- The configuration record handed to `migrator.config` (the fields the
core recognizes). -/
structure CoreConfig where
  logs : Bool
  logIfLatest : Bool
  collectionName : String
  backup : Bool

/-- JavaScript `a || b || dflt` on possibly-undefined booleans: the first
truthy operand, else the default (`undefined` and `false` are falsy). -/
def jsOrBool (a b : Option Bool) (dflt : Bool) : Bool :=
  match a with
  | some true => true
  | _ =>
    match b with
    | some true => true
    | _ => dflt

/-- JavaScript `a || b || dflt` on possibly-undefined strings: the empty
string is falsy and falls through like `undefined`. -/
def jsOrStr (a b : Option String) (dflt : String) : String :=
  match a with
  | some s =>
    if s = "" then
      match b with
      | some t => if t = "" then dflt else t
      | none => dflt
    else s
  | none =>
    match b with
    | some t => if t = "" then dflt else t
    | none => dflt

/-- The `config` object construction (cli.ts:102-125):
`logs: argv.logs || configFile.logs || true`, `logIfLatest: true` (a
hard-coded literal), `collectionName: argv.collectionName ||
configFile.collectionName || 'migrations'`, `backup: argv.backup ||
configFile.backup || false`. -/
def mkConfig (argv : CliArgs) (configFile : ConfigFileOpts) : CoreConfig :=
  { logs := jsOrBool argv.logs configFile.logs true
    logIfLatest := true
    collectionName := jsOrStr argv.collectionName configFile.collectionName "migrations"
    backup := jsOrBool argv.backup configFile.backup false }

/-! ### Scheduler lemmas and closed-form traces -/

/-- Spawning the registration callbacks queues one microtask per version and
otherwise behaves as the forEach continuation. -/
lemma syncRun_spawnAll_map (vs : List String) (k : Prog) :
    syncRun (.spawnAll (vs.map migrationCallback) k) =
      ⟨(syncRun k).events, (vs.map fun v => .emit (.addCall v) .done) ++ (syncRun k).micro,
        (syncRun k).pend, (syncRun k).halted⟩ := by
  induction vs with
  | nil => simp [syncRun]
  | cons v vs ih => simp [syncRun, migrationCallback, ih]

/-- Draining the registration microtasks emits one `add` per version, in
queue order, and leaves the pending externals untouched. -/
lemma loop_drain (vs : List String) (fuel : ℕ) (pend : List Prog) :
    loop (vs.length + fuel) (vs.map fun v => .emit (.addCall v) .done) pend =
      vs.map Event.addCall ++ loop fuel [] pend := by
  induction vs with
  | nil => simp
  | cons v vs ih =>
    have h : (v :: vs).length + fuel = (vs.length + fuel) + 1 := by
      simp [List.length_cons]
      omega
    rw [h]
    simp [loop, syncRun, ih]

/-- An empty event loop produces no events. -/
lemma loop_nil (fuel : ℕ) : loop fuel [] [] = [] := by
  cases fuel <;> rfl

/-- Resolving a pending call whose continuation awaits one more external
call yields the two events in order. -/
lemma loop_emit_awaitP_emit (fuel : ℕ) (a b : Event) :
    loop (fuel + 2) [] [.emit a (.awaitP (.emit b .done))] = [a, b] := by
  show loop (fuel + 1 + 1) [] [.emit a (.awaitP (.emit b .done))] = [a, b]
  simp [loop, syncRun, loop_nil]

/-- Resolving a pending call whose continuation exits the process yields
only that call's event. -/
lemma loop_emit_awaitP_halt (fuel : ℕ) (a : Event) :
    loop (fuel + 2) [] [.emit a (.awaitP .halt)] = [a] := by
  show loop (fuel + 1 + 1) [] [.emit a (.awaitP .halt)] = [a]
  simp [loop, syncRun]

/-- There are never more normalized versions than directory entries. -/
lemma versionsNormalized_length_le (listing : List String) :
    (versionsNormalized listing).length ≤ listing.length := by
  simp only [versionsNormalized, versionsArray, versionsFiltered, List.length_map]
  exact List.length_filter_le _ _

/-- Closed form of the trace when the unknown-version guard fires: the CLI
logs the error and exits before calling any collaborator. -/
lemma migrateTrace_guardFail (listing : List String) (migration : ℚ)
    (rerun backup backupOk : Bool) (cv : ℚ) (now : ℕ)
    (h : unknownVersionGuard listing migration = true) :
    migrateTrace listing migration rerun backup backupOk cv now = [.errorExit] := by
  simp [migrateTrace, migrateProg, h, runProg, syncRun]

/-- Closed form of the trace with backups disabled: `migrateTo` is invoked
as soon as the main task reaches it, and the queued registration callbacks
only call `migrator.add` afterwards. -/
lemma migrateTrace_noBackup (listing : List String) (migration : ℚ)
    (rerun backupOk : Bool) (cv : ℚ) (now : ℕ)
    (h : unknownVersionGuard listing migration = false) :
    migrateTrace listing migration rerun false backupOk cv now =
      .configCall :: .migrateToCall (migrateToSpec migration rerun) ::
        (versionsNormalized listing).map .addCall := by
  obtain ⟨f, hf⟩ : ∃ f, listing.length + 7 = (versionsNormalized listing).length + f :=
    ⟨listing.length + 7 - (versionsNormalized listing).length, by
      have := versionsNormalized_length_le listing
      omega⟩
  show runProg (listing.length + 7 + 1) _ = _
  simp only [migrateProg, h, Bool.false_eq_true, if_false, migrateAfterConfig,
    runProg, syncRun]
  simp only [loop, syncRun_spawnAll_map]
  simp only [syncRun, migrateTail, Bool.false_eq_true, if_false,
    List.nil_append, List.append_nil]
  rw [hf, loop_drain]
  simp [loop_nil]

/-- Closed form of the trace with backups enabled: `getVersion`, then the
queued registrations, then the backup subprocess, then `migrateTo` if and
only if the backup succeeded. -/
lemma migrateTrace_backup (listing : List String) (migration : ℚ)
    (rerun backupOk : Bool) (cv : ℚ) (now : ℕ)
    (h : unknownVersionGuard listing migration = false) :
    migrateTrace listing migration rerun true backupOk cv now =
      .configCall :: .getVersionCall ::
        ((versionsNormalized listing).map .addCall ++
          .backupCall (backupFile cv now) ::
            (if backupOk then [.migrateToCall (migrateToSpec migration rerun)] else [])) := by
  obtain ⟨f, hf⟩ : ∃ f, listing.length + 7 = (versionsNormalized listing).length + (f + 2) :=
    ⟨listing.length + 5 - (versionsNormalized listing).length, by
      have := versionsNormalized_length_le listing
      omega⟩
  show runProg (listing.length + 7 + 1) _ = _
  simp only [migrateProg, h, Bool.false_eq_true, if_false, migrateAfterConfig, if_true,
    runProg, syncRun]
  simp only [loop, syncRun_spawnAll_map]
  simp only [syncRun, Bool.false_eq_true, if_false, List.nil_append, List.append_nil]
  rw [hf, loop_drain]
  cases backupOk with
  | true => simp [migrateTail, loop_emit_awaitP_emit]
  | false => simp [loop_emit_awaitP_halt]

/-! ### Guard characterization and filter helpers -/

/-- The unknown-version guard passes exactly when the target is 0 or a
discovered numeric version. -/
lemma unknownVersionGuard_false_iff (listing : List String) (migration : ℚ) :
    unknownVersionGuard listing migration = false ↔
      migration = 0 ∨ migration ∈ versionsArray listing := by
  simp [unknownVersionGuard, List.contains, List.elem_eq_mem]
  tauto

/-- The unknown-version guard fires exactly when the target is neither 0
nor a discovered numeric version. -/
lemma unknownVersionGuard_true_iff (listing : List String) (migration : ℚ) :
    unknownVersionGuard listing migration = true ↔
      migration ≠ 0 ∧ migration ∉ versionsArray listing := by
  simp [unknownVersionGuard, List.contains, List.elem_eq_mem]

/-- Registration events are not backup events. -/
lemma filter_isBackupCall_addCalls (vs : List String) :
    (vs.map Event.addCall).filter Event.isBackupCall = [] := by
  induction vs with
  | nil => rfl
  | cons v vs ih => simp [List.filter_cons, Event.isBackupCall, ih]

/-- Registration events are not migrateTo events. -/
lemma filter_isMigrateToCall_addCalls (vs : List String) :
    (vs.map Event.addCall).filter Event.isMigrateToCall = [] := by
  induction vs with
  | nil => rfl
  | cons v vs ih => simp [List.filter_cons, Event.isMigrateToCall, ih]

/-- The backup-before-migrate scanner skips over registration events. -/
lemma backupBeforeAnyMigrate_addCalls (vs : List String) (l : List Event) :
    backupBeforeAnyMigrate (vs.map Event.addCall ++ l) = backupBeforeAnyMigrate l := by
  induction vs with
  | nil => rfl
  | cons v vs ih =>
    simp [backupBeforeAnyMigrate, Event.isMigrateToCall, Event.isBackupCall, ih]

/-- Reading versions off a pure block of registration events returns them
all, in order. -/
lemma addVersions_map_addCall (vs : List String) :
    addVersions (vs.map Event.addCall) = vs := by
  induction vs with
  | nil => rfl
  | cons v vs ih => simpa [addVersions, List.filterMap_cons] using ih

/-- Events other than registrations contribute no versions. -/
lemma addVersions_cons_other (e : Event) (t : List Event) (he : e.isAddCall = false) :
    addVersions (e :: t) = addVersions t := by
  cases e <;> simp_all [addVersions, List.filterMap_cons, Event.isAddCall]

/-- Version extraction distributes over trace concatenation. -/
lemma addVersions_append (s t : List Event) :
    addVersions (s ++ t) = addVersions s ++ addVersions t := by
  simp [addVersions, List.filterMap_append]

/-- Reading the registered versions off any successful migrate trace gives
exactly the normalized filtered listing, in listing order. -/
lemma addVersions_migrateTrace (listing : List String) (migration : ℚ)
    (rerun backup backupOk : Bool) (cv : ℚ) (now : ℕ)
    (h : unknownVersionGuard listing migration = false) :
    addVersions (migrateTrace listing migration rerun backup backupOk cv now) =
      versionsNormalized listing := by
  cases backup with
  | false =>
    rw [migrateTrace_noBackup _ _ _ _ _ _ h, addVersions_cons_other Event.configCall _ rfl,
      addVersions_cons_other (Event.migrateToCall _) _ rfl, addVersions_map_addCall]
  | true =>
    rw [migrateTrace_backup _ _ _ _ _ _ h, addVersions_cons_other Event.configCall _ rfl,
      addVersions_cons_other Event.getVersionCall _ rfl, addVersions_append,
      addVersions_map_addCall, addVersions_cons_other (Event.backupCall _) _ rfl]
    cases backupOk <;> simp [addVersions]

/-! ### Concrete evaluations of the primitives -/

/-- `parseFloat("1.0") = 1`. -/
lemma parseFloat3_one_zero : parseFloat3 "1.0" = 1 := by
  simp +decide only [parseFloat3, show "1.0".data = ['1', '.', '0'] from rfl,
    show digitVal '1' = 1 from rfl, show digitVal '0' = 0 from rfl]
  norm_num

/-- `parseFloat("1.1") = 1.1`. -/
lemma parseFloat3_one_one : parseFloat3 "1.1" = 11 / 10 := by
  simp +decide only [parseFloat3, show "1.1".data = ['1', '.', '1'] from rfl,
    show digitVal '1' = 1 from rfl]
  norm_num

/-- `parseFloat("1.5") = 1.5`. -/
lemma parseFloat3_one_five : parseFloat3 "1.5" = 3 / 2 := by
  simp +decide only [parseFloat3, show "1.5".data = ['1', '.', '5'] from rfl,
    show digitVal '1' = 1 from rfl, show digitVal '5' = 5 from rfl]
  norm_num

/-- `parseFloat("0.0") = 0`. -/
lemma parseFloat3_zero_zero : parseFloat3 "0.0" = 0 := by
  simp +decide only [parseFloat3, show "0.0".data = ['0', '.', '0'] from rfl,
    show digitVal '0' = 0 from rfl]
  norm_num

/-- `parseFloat("1x0") = 1`: the parse stops at the non-numeric character. -/
lemma parseFloat3_one_x_zero : parseFloat3 "1x0" = 1 := by
  simp +decide only [parseFloat3, show "1x0".data = ['1', 'x', '0'] from rfl,
    show digitVal '1' = 1 from rfl]

/-- `(1).toFixed(1) = "1.0"`. -/
lemma toFixed1_one : toFixed1 1 = "1.0" := by
  rw [toFixed1, show (⌊(1 : ℚ) * 10 + 1 / 2⌋ : ℤ) = 10 by norm_num]
  rfl

/-- `(1.1).toFixed(1) = "1.1"`. -/
lemma toFixed1_eleven_tenths : toFixed1 (11 / 10) = "1.1" := by
  rw [toFixed1, show (⌊(11 / 10 : ℚ) * 10 + 1 / 2⌋ : ℤ) = 11 by norm_num]
  rfl

/-- `(1.5).toFixed(1) = "1.5"`. -/
lemma toFixed1_three_halves : toFixed1 (3 / 2) = "1.5" := by
  rw [toFixed1, show (⌊(3 / 2 : ℚ) * 10 + 1 / 2⌋ : ℤ) = 15 by norm_num]
  rfl

/-- `(0).toFixed(1) = "0.0"`. -/
lemma toFixed1_zero : toFixed1 0 = "0.0" := by
  rw [toFixed1, show (⌊(0 : ℚ) * 10 + 1 / 2⌋ : ℤ) = 0 by norm_num]
  rfl

/-- The number 1 prints as `"1"`. -/
lemma jsNumToString_one : jsNumToString 1 = "1" := by
  rw [jsNumToString, show (⌊(1 : ℚ) * 10⌋ : ℤ) = 10 by norm_num]
  rfl

/-- The number 0 prints as `"0"`. -/
lemma jsNumToString_zero : jsNumToString 0 = "0" := by
  rw [jsNumToString, show (⌊(0 : ℚ) * 10⌋ : ℤ) = 0 by norm_num]
  rfl

/-- The listing `["1.0"]` discovers exactly the version 1. -/
lemma versionsArray_single_one_zero : versionsArray ["1.0"] = [1] := by
  simp +decide [versionsArray, versionsFiltered, parseFloat3_one_zero]

/-- The listing `["1.0"]` registers the unit `"1.0"`. -/
lemma versionsNormalized_single_one_zero : versionsNormalized ["1.0"] = ["1.0"] := by
  simp [versionsNormalized, versionsArray_single_one_zero, toFixed1_one]

/-- Target 1 passes the guard against listing `["1.0"]`. -/
lemma guard_one_zero_target_one : unknownVersionGuard ["1.0"] 1 = false := by
  rw [unknownVersionGuard_false_iff, versionsArray_single_one_zero]
  simp

/-- The descending listing `["1.1", "1.0"]` discovers 1.1 then 1. -/
lemma versionsArray_pair : versionsArray ["1.1", "1.0"] = [11 / 10, 1] := by
  simp +decide [versionsArray, versionsFiltered, parseFloat3_one_one, parseFloat3_one_zero]

/-- The descending listing keeps its order through normalization. -/
lemma versionsNormalized_pair : versionsNormalized ["1.1", "1.0"] = ["1.1", "1.0"] := by
  simp [versionsNormalized, versionsArray_pair, toFixed1_eleven_tenths, toFixed1_one]

/-- Target 1 passes the guard against the descending listing. -/
lemma guard_pair_target_one : unknownVersionGuard ["1.1", "1.0"] 1 = false := by
  rw [unknownVersionGuard_false_iff, versionsArray_pair]
  simp

/-! ### Shape of the printed versions -/

/-- A nonnegative integer prints like the natural number it equals. -/
lemma int_toString_of_nonneg (m : ℤ) (hm : 0 ≤ m) : toString m = toString m.toNat := by
  lift m to ℕ using hm
  rfl

/-- On a nonnegative input, `toFixed1` produces an integer part, a dot,
and exactly one fractional digit. -/
lemma toFixed1_shape (q : ℚ) (hq : 0 ≤ q) :
    ∃ n d : ℕ, d < 10 ∧ toFixed1 q = toString n ++ "." ++ toString d := by
  have ht : (0 : ℤ) ≤ ⌊q * 10 + 1 / 2⌋ := Int.floor_nonneg.mpr (by positivity)
  refine ⟨(⌊q * 10 + 1 / 2⌋ / 10).toNat, (⌊q * 10 + 1 / 2⌋ % 10).toNat, ?_, ?_⟩
  · have h10 : ⌊q * 10 + 1 / 2⌋ % 10 < 10 := Int.emod_lt_of_pos _ (by norm_num)
    omega
  · rw [toFixed1, int_toString_of_nonneg _ (Int.ediv_nonneg ht (by norm_num)),
      int_toString_of_nonneg _ (Int.emod_nonneg _ (by norm_num))]

/-- `parseFloat` never returns a negative value on the filtered entries:
they all start with a digit. -/
lemma parseFloat3_nonneg (s : String) : 0 ≤ parseFloat3 s := by
  rw [parseFloat3]
  split
  · split_ifs <;> positivity
  · norm_num

/-! ### Claims -/

/-- Claim C1: a requested target version that is neither 0 nor one of the
discovered numeric versions makes the migrate command log the
unknown-version error and exit before any collaborator call — no
registration, no backup, no `migrateTo`, hence no state mutation — while a
target of 0 is exempt from the check and never produces that error. -/
theorem migrate_rejects_unknown_target (listing : List String) (migration : ℚ)
    (rerun backup backupOk : Bool) (cv : ℚ) (now : ℕ) :
    (migration ≠ 0 → migration ∉ versionsArray listing →
      migrateTrace listing migration rerun backup backupOk cv now = [.errorExit]) ∧
    (migration = 0 →
      Event.errorExit ∉ migrateTrace listing migration rerun backup backupOk cv now) := by
  constructor
  · intro h0 hmem
    exact migrateTrace_guardFail _ _ _ _ _ _ _
      ((unknownVersionGuard_true_iff _ _).mpr ⟨h0, hmem⟩)
  · intro h0
    have hg : unknownVersionGuard listing migration = false :=
      (unknownVersionGuard_false_iff _ _).mpr (Or.inl h0)
    cases backup with
    | false =>
      rw [migrateTrace_noBackup _ _ _ _ _ _ hg]
      simp
    | true =>
      rw [migrateTrace_backup _ _ _ _ _ _ hg]
      cases backupOk <;> simp

/-- Concrete run of Claim C1: with only version 1.0 on disk, target 2 is
rejected outright and target 0 never triggers the unknown-version error. -/
theorem migrate_rejects_unknown_target_witness :
    migrateTrace ["1.0"] 2 false false true 0 0 = [.errorExit] ∧
    Event.errorExit ∉ migrateTrace ["1.0"] 0 false false true 0 0 := by
  constructor
  · exact (migrate_rejects_unknown_target ["1.0"] 2 false false true 0 0).1
      (by norm_num)
      (by rw [versionsArray_single_one_zero]; norm_num [List.mem_singleton])
  · exact (migrate_rejects_unknown_target ["1.0"] 0 false false true 0 0).2 rfl

/-- Claim C2 (refuted by the code): at the failing input — one discovered
version 1.0, backups disabled, target 1 — the CLI invokes
`migrator.migrateTo` before any `migrator.add` has run: the async forEach
callbacks only reach their `add` calls on the microtask queue after
`migrateTo` is already called, so registration does not precede plan
computation. -/
theorem registration_after_migrateTo_at_failing_input :
    migrateTrace ["1.0"] 1 false false true 0 0 =
      [.configCall, .migrateToCall "1", .addCall "1.0"] ∧
    addsPrecedeMigrateTo [.configCall, .migrateToCall "1", .addCall "1.0"] = false := by
  refine ⟨?_, by decide⟩
  rw [migrateTrace_noBackup _ _ _ _ _ _ guard_one_zero_target_one,
    versionsNormalized_single_one_zero]
  simp [migrateToSpec, jsNumToString_one]

/-- Claim C3 (refuted by the code): the filter regex `/^[\d].[\d]$/` has
an unescaped dot, so the entry `1x0` — not of the form digit, literal dot,
digit — is treated as a version identifier all the same, while `README.md`
is indeed ignored. -/
theorem regex_accepts_non_dot_entry :
    jsVersionRegexTest "1x0" = true ∧ specVersionPattern "1x0" = false ∧
    versionsFiltered ["README.md", "1.0", "1x0"] = ["1.0", "1x0"] := by
  exact ⟨by decide, by decide, by decide⟩

/-- Claim C4 counterexample: with the directory listed as 1.1 before 1.0,
the units are registered as 1.1 then 1.0 — the CLI never sorts, so the
numeric versions passed to the runner are not ascending. -/
theorem adds_not_ascending_counterexample :
    addVersions (migrateTrace ["1.1", "1.0"] 1 false false true 0 0) = ["1.1", "1.0"] ∧
    ¬ List.Chain' (· < ·)
      ((addVersions (migrateTrace ["1.1", "1.0"] 1 false false true 0 0)).map parseFloat3) := by
  have hadds : addVersions (migrateTrace ["1.1", "1.0"] 1 false false true 0 0)
      = ["1.1", "1.0"] := by
    rw [addVersions_migrateTrace _ _ _ _ _ _ _ guard_pair_target_one, versionsNormalized_pair]
  refine ⟨hadds, ?_⟩
  rw [hadds]
  simp [parseFloat3_one_one, parseFloat3_one_zero, List.chain'_cons]
  norm_num

/-- Claim C4 amended: the units are passed to the runner in the order of
the filtered directory listing — no sorting and no deduplication happen —
so ascending order holds only when the listing is already ascending. -/
theorem adds_follow_listing_order (listing : List String) (migration : ℚ)
    (rerun backup backupOk : Bool) (cv : ℚ) (now : ℕ)
    (h : unknownVersionGuard listing migration = false) :
    addVersions (migrateTrace listing migration rerun backup backupOk cv now) =
      versionsNormalized listing :=
  addVersions_migrateTrace _ _ _ _ _ _ _ h

/-- Concrete run of amended Claim C4 on the descending listing. -/
theorem adds_follow_listing_order_witness :
    unknownVersionGuard ["1.1", "1.0"] 1 = false ∧
    addVersions (migrateTrace ["1.1", "1.0"] 1 false true true 0 7) =
      versionsNormalized ["1.1", "1.0"] :=
  ⟨guard_pair_target_one,
    adds_follow_listing_order ["1.1", "1.0"] 1 false true true 0 7 guard_pair_target_one⟩

/-- Claim C5: with backups enabled the backup subprocess is invoked
exactly once and before `migrateTo` is ever invoked; if the backup fails
the run aborts with `migrateTo` never called (so no unit executes); with
backups disabled the backup subprocess is never invoked. -/
theorem backup_once_before_migrateTo (listing : List String) (migration : ℚ)
    (rerun backupOk : Bool) (cv : ℚ) (now : ℕ)
    (h : unknownVersionGuard listing migration = false) :
    countBackups (migrateTrace listing migration rerun true backupOk cv now) = 1 ∧
    backupBeforeAnyMigrate (migrateTrace listing migration rerun true backupOk cv now) = true ∧
    countMigrates (migrateTrace listing migration rerun true false cv now) = 0 ∧
    (∀ ok, countBackups (migrateTrace listing migration rerun false ok cv now) = 0) := by
  refine ⟨?_, ?_, ?_, ?_⟩
  · rw [migrateTrace_backup _ _ _ _ _ _ h]
    cases backupOk <;>
      simp [countBackups, List.filter_cons, List.filter_append,
        filter_isBackupCall_addCalls, Event.isBackupCall]
  · rw [migrateTrace_backup _ _ _ _ _ _ h]
    simp only [backupBeforeAnyMigrate, Event.isMigrateToCall, Event.isBackupCall,
      Bool.false_eq_true, if_false]
    rw [backupBeforeAnyMigrate_addCalls]
    simp [backupBeforeAnyMigrate, Event.isMigrateToCall, Event.isBackupCall]
  · rw [migrateTrace_backup _ _ _ _ _ _ h]
    simp [countMigrates, List.filter_cons, List.filter_append,
      filter_isMigrateToCall_addCalls, Event.isMigrateToCall]
  · intro ok
    rw [migrateTrace_noBackup _ _ _ _ _ _ h]
    simp [countBackups, List.filter_cons, filter_isBackupCall_addCalls, Event.isBackupCall]

/-- Concrete run of Claim C5 with one discovered version and target 1. -/
theorem backup_once_before_migrateTo_witness :
    unknownVersionGuard ["1.0"] 1 = false ∧
    (countBackups (migrateTrace ["1.0"] 1 false true true 0 0) = 1 ∧
      backupBeforeAnyMigrate (migrateTrace ["1.0"] 1 false true true 0 0) = true ∧
      countMigrates (migrateTrace ["1.0"] 1 false true false 0 0) = 0 ∧
      (∀ ok, countBackups (migrateTrace ["1.0"] 1 false false ok 0 0) = 0)) :=
  ⟨guard_one_zero_target_one,
    backup_once_before_migrateTo ["1.0"] 1 false true 0 0 guard_one_zero_target_one⟩

/-- Claim C6: the archive name handed to the backup subprocess is the
current version read from `migrator.getVersion`, printed with exactly one
fractional digit, then an underscore, the millisecond timestamp, and the
suffix `.gz`. -/
theorem backup_archive_naming (listing : List String) (migration : ℚ)
    (rerun backupOk : Bool) (cv : ℚ) (now : ℕ)
    (h : unknownVersionGuard listing migration = false) (hcv : 0 ≤ cv) :
    Event.backupCall (backupFile cv now) ∈
      migrateTrace listing migration rerun true backupOk cv now ∧
    ∃ n d : ℕ, d < 10 ∧
      backupFile cv now = toString n ++ "." ++ toString d ++ "_" ++ toString now ++ ".gz" := by
  constructor
  · rw [migrateTrace_backup _ _ _ _ _ _ h]
    simp
  · obtain ⟨n, d, hd, hshape⟩ := toFixed1_shape cv hcv
    refine ⟨n, d, hd, ?_⟩
    rw [backupFile, hshape]
    simp [String.append_assoc]

/-- Concrete run of Claim C6 at stored version 1.5 and timestamp 5. -/
theorem backup_archive_naming_witness :
    unknownVersionGuard ["1.0"] 1 = false ∧ (0 : ℚ) ≤ 3 / 2 ∧
    (Event.backupCall (backupFile (3 / 2) 5) ∈
        migrateTrace ["1.0"] 1 false true true (3 / 2) 5 ∧
      ∃ n d : ℕ, d < 10 ∧
        backupFile (3 / 2) 5 = toString n ++ "." ++ toString d ++ "_" ++ toString (5 : ℕ) ++ ".gz") :=
  ⟨guard_one_zero_target_one, by norm_num,
    backup_archive_naming ["1.0"] 1 false true (3 / 2) 5 guard_one_zero_target_one (by norm_num)⟩

/-- Claim C7 counterexample: the entry `0.0` passes the discovery filter
and is registered as a migration unit, although its version 0 is not
strictly positive. -/
theorem zero_version_registered_counterexample :
    jsVersionRegexTest "0.0" = true ∧
    Event.addCall "0.0" ∈ migrateTrace ["0.0"] 0 false false true 0 0 := by
  refine ⟨by decide, ?_⟩
  have hg : unknownVersionGuard ["0.0"] 0 = false :=
    (unknownVersionGuard_false_iff _ _).mpr (Or.inl rfl)
  rw [migrateTrace_noBackup _ _ _ _ _ _ hg]
  have hvn : versionsNormalized ["0.0"] = ["0.0"] := by
    simp +decide [versionsNormalized, versionsArray, versionsFiltered,
      parseFloat3_zero_zero, toFixed1_zero]
  rw [hvn]
  simp

/-- Claim C7 amended: every version registered by discovery normalizes to
a nonnegative decimal with exactly one fractional digit — zero included,
so strict positivity does not hold. -/
theorem registered_version_shape (listing : List String) (migration : ℚ)
    (rerun backup backupOk : Bool) (cv : ℚ) (now : ℕ) (v : String)
    (hv : v ∈ addVersions (migrateTrace listing migration rerun backup backupOk cv now)) :
    ∃ n d : ℕ, d < 10 ∧ v = toString n ++ "." ++ toString d := by
  by_cases hg : unknownVersionGuard listing migration = true
  · rw [migrateTrace_guardFail _ _ _ _ _ _ _ hg] at hv
    simp [addVersions, List.filterMap_cons] at hv
  · rw [addVersions_migrateTrace _ _ _ _ _ _ _ (by simpa using hg)] at hv
    simp only [versionsNormalized, versionsArray, List.map_map, List.mem_map,
      Function.comp] at hv
    obtain ⟨e, _, rfl⟩ := hv
    exact toFixed1_shape _ (parseFloat3_nonneg e)

/-- Concrete instance of amended Claim C7 at the registered version 1.0. -/
theorem registered_version_shape_witness :
    ("1.0" ∈ addVersions (migrateTrace ["1.0"] 1 false false true 0 0)) ∧
    ∃ n d : ℕ, d < 10 ∧ "1.0" = toString n ++ "." ++ toString d := by
  have hmem : "1.0" ∈ addVersions (migrateTrace ["1.0"] 1 false false true 0 0) := by
    rw [addVersions_migrateTrace _ _ _ _ _ _ _ guard_one_zero_target_one,
      versionsNormalized_single_one_zero]
    simp
  exact ⟨hmem, registered_version_shape _ _ _ _ _ _ _ _ hmem⟩

/-- Claim C8 counterexample: no combination of command-line options and
config-file contents produces a configuration with `logIfLatest` false —
the CLI hard-codes it, so the "already at latest" notice is not
suppressible through the configuration surface. -/
theorem logIfLatest_not_suppressible_counterexample :
    ¬ ∃ (a : CliArgs) (c : ConfigFileOpts), (mkConfig a c).logIfLatest = false := by
  rintro ⟨a, c, h⟩
  simp [mkConfig] at h

/-- Claim C8 amended: the configuration handed to the core always carries
`logIfLatest = true`, whatever the command line and config file contain. -/
theorem logIfLatest_always_true (a : CliArgs) (c : ConfigFileOpts) :
    (mkConfig a c).logIfLatest = true := rfl

/-- Claim C9: whenever `migrateTo` is invoked, its argument follows the
grammar `<number>` or `<number>,rerun`: the stringified target with the
literal `,rerun` suffix exactly when the rerun flag is set, the bare
target otherwise. -/
theorem migrateTo_spec_grammar (listing : List String) (migration : ℚ)
    (rerun backup backupOk : Bool) (cv : ℚ) (now : ℕ) (s : String)
    (hs : Event.migrateToCall s ∈
      migrateTrace listing migration rerun backup backupOk cv now) :
    s = if rerun then jsNumToString migration ++ ",rerun" else jsNumToString migration := by
  by_cases hg : unknownVersionGuard listing migration = true
  · rw [migrateTrace_guardFail _ _ _ _ _ _ _ hg] at hs
    simp at hs
  · replace hg : unknownVersionGuard listing migration = false := by simpa using hg
    have hspec : s = migrateToSpec migration rerun := by
      cases backup with
      | false =>
        rw [migrateTrace_noBackup _ _ _ _ _ _ hg] at hs
        simpa using hs
      | true =>
        rw [migrateTrace_backup _ _ _ _ _ _ hg] at hs
        cases backupOk with
        | false => simp at hs
        | true => simpa using hs
    rw [hspec, migrateToSpec]

/-- Concrete run of Claim C9 with the rerun flag set. -/
theorem migrateTo_spec_grammar_witness :
    (Event.migrateToCall "1,rerun" ∈ migrateTrace ["1.0"] 1 true false true 0 0) ∧
    "1,rerun" = if true then jsNumToString 1 ++ ",rerun" else jsNumToString 1 := by
  have hmem : Event.migrateToCall "1,rerun" ∈ migrateTrace ["1.0"] 1 true false true 0 0 := by
    rw [migrateTrace_noBackup _ _ _ _ _ _ guard_one_zero_target_one]
    simp [migrateToSpec, jsNumToString_one]
  exact ⟨hmem, migrateTo_spec_grammar _ _ _ _ _ _ _ _ hmem⟩

/-- Claim C10: `argv.logs || configFile.logs || true` can never be false —
the `logs` value handed to the core is true for every combination of
command-line arguments and config file, so logging cannot be disabled
through the advertised option. -/
theorem logs_always_true (a : CliArgs) (c : ConfigFileOpts) :
    (mkConfig a c).logs = true := by
  show jsOrBool a.logs c.logs true = true
  rcases h1 : a.logs with _ | (_ | _) <;> rcases h2 : c.logs with _ | (_ | _) <;> rfl

end UnderbaseCli
